import Mathlib

/-!
Verification of the malaria incidence disaggregation notebook and the
dashboard notebook. Pandas/NumPy float columns are modelled by `PVal`
(exact rationals plus NaN and signed infinity); series reductions
(`sum`, `max`, `mean`) follow pandas' default `skipna=True` semantics.
-/

/-- A pandas float cell: NaN, signed infinity, or an exact rational. -/
inductive PVal where
  | nan : PVal
  | inf : Bool → PVal
  | num : ℚ → PVal
deriving DecidableEq

/-- True exactly on NaN cells. -/
def isNan : PVal → Bool
  | .nan => true
  | _ => false

/-- IEEE-style addition on cells. -/
def padd : PVal → PVal → PVal
  | .nan, _ => .nan
  | _, .nan => .nan
  | .inf s, .inf t => if s == t then .inf s else .nan
  | .inf s, .num _ => .inf s
  | .num _, .inf s => .inf s
  | .num a, .num b => .num (a + b)

/-- IEEE-style negation on cells. -/
def pneg : PVal → PVal
  | .nan => .nan
  | .inf s => .inf (!s)
  | .num a => .num (-a)

/-- IEEE-style subtraction on cells. -/
def psub (a b : PVal) : PVal := padd a (pneg b)

/-- IEEE-style multiplication on cells. -/
def pmul : PVal → PVal → PVal
  | .nan, _ => .nan
  | _, .nan => .nan
  | .inf s, .inf t => .inf (s == t)
  | .inf s, .num a => if a = 0 then .nan else .inf (s == decide (0 < a))
  | .num a, .inf s => if a = 0 then .nan else .inf (s == decide (0 < a))
  | .num a, .num b => .num (a * b)

/-- IEEE-style division on cells: 0/0 is NaN, x/0 for x ≠ 0 is signed infinity. -/
def pdiv : PVal → PVal → PVal
  | .nan, _ => .nan
  | _, .nan => .nan
  | .inf _, .inf _ => .nan
  | .inf s, .num a => if a = 0 then .inf s else .inf (s == decide (0 < a))
  | .num _, .inf _ => .num 0
  | .num a, .num b =>
    if b = 0 then (if a = 0 then .nan else .inf (decide (0 < a))) else .num (a / b)

/-- Absolute value on cells. -/
def pabs : PVal → PVal
  | .nan => .nan
  | .inf _ => .inf true
  | .num a => .num |a|

/-- pandas `Series.clip(lower=0)` on a cell: NaN stays NaN. -/
def pclip0 : PVal → PVal
  | .nan => .nan
  | .inf true => .inf true
  | .inf false => .num 0
  | .num a => .num (max a 0)

/-- Binary maximum of two non-NaN cells (NaN arguments are absorbed,
matching a skipna fold). -/
def pmax2 : PVal → PVal → PVal
  | .nan, b => b
  | a, .nan => a
  | .inf true, _ => .inf true
  | _, .inf true => .inf true
  | .inf false, b => b
  | a, .inf false => a
  | .num a, .num b => .num (max a b)

/-- pandas `Series.max()` with default `skipna=True`: NaN cells are ignored;
an all-NaN or empty series has maximum NaN. -/
def pmaxSkipNa (l : List PVal) : PVal :=
  match l.filter (fun v => !isNan v) with
  | [] => .nan
  | x :: xs => xs.foldl pmax2 x

/-- pandas `Series.sum()` with default `skipna=True`: NaN cells are ignored;
an all-NaN or empty series sums to 0. -/
def psumSkipNa (l : List PVal) : PVal :=
  (l.filter (fun v => !isNan v)).foldl padd (.num 0)

/-- pandas `Series.mean()` with default `skipna=True`: sum of the non-NaN
cells divided by their count; an all-NaN or empty series has mean NaN. -/
def pmeanSkipNa (l : List PVal) : PVal :=
  let nn := l.filter (fun v => !isNan v)
  if nn.isEmpty then .nan else pdiv (nn.foldl padd (.num 0)) (.num nn.length)

/-- Association-list lookup by state key (first match wins). -/
def findVal {α : Type} (k : String) : List (String × α) → Option α
  | [] => none
  | r :: rs => if r.1 = k then some r.2 else findVal k rs

/-!
Embedding of `malaria_data_disaggregation.ipynb`. A row of `states_gdf`
carries the state key, the opaque boundary geometry, and the numeric
columns the notebook adds stage by stage (columns not yet assigned are
NaN, as they would read before assignment).
-/

/-- A row of the `states_gdf` GeoDataFrame. -/
structure Row (γ : Type) where
  state : String
  geometry : γ
  population : PVal := .nan
  avgTemp : PVal := .nan
  avgRain : PVal := .nan
  lulcWeight : PVal := .nan
  tempScore : PVal := .nan
  rainScore : PVal := .nan
  envRisk : PVal := .nan
  stateWeight : PVal := .nan
  allocatedCases : PVal := .nan
deriving DecidableEq

/-- The boundary GeoDataFrame as loaded: one row per boundary entry. -/
def initRows {γ : Type} (boundary : List (String × γ)) : List (Row γ) :=
  boundary.map (fun b => { state := b.1, geometry := b.2 })

/-- `states_gdf.merge(pop_df, on="State", how="left")`: every left row is
kept; it is repeated once per matching population row (population set from
that row), and an unmatched left row keeps a single copy with NaN. -/
def mergePopStep {γ : Type} (rows : List (Row γ)) (pop : List (String × ℚ)) :
    List (Row γ) :=
  rows.flatMap (fun b =>
    let ms := pop.filter (fun r => r.1 = b.state)
    if ms.isEmpty then [{ b with population := .nan }]
    else ms.map (fun r => { b with population := .num r.2 }))

/-- `states_gdf.merge(env_df, on="State", how="left")` with columns
`Avg_Temperature` and `Avg_Rainfall`. -/
def mergeEnvStep {γ : Type} (rows : List (Row γ)) (env : List (String × ℚ × ℚ)) :
    List (Row γ) :=
  rows.flatMap (fun b =>
    let ms := env.filter (fun r => r.1 = b.state)
    if ms.isEmpty then [{ b with avgTemp := .nan, avgRain := .nan }]
    else ms.map (fun r => { b with avgTemp := .num r.2.1, avgRain := .num r.2.2 }))

/-- The Step-2 cell of the notebook: population then environment merged
onto the boundary GeoDataFrame. -/
def mergeStates {γ : Type} (boundary : List (String × γ)) (pop : List (String × ℚ))
    (env : List (String × ℚ × ℚ)) : List (Row γ) :=
  mergeEnvStep (mergePopStep (initRows boundary) pop) env

/-- The `lulc_weight_mapping` dict of the notebook. -/
def lulc_weight_mapping : List (String × ℚ) :=
  [("Urban", 3/2), ("Agricultural", 13/10), ("Forested", 1), ("Water", 1/2)]

/-- `lulc_gdf["LULC_Weight"] = lulc_gdf["LULC_Type"].map(lulc_weight_mapping)`:
one weight cell per LULC record, `none` (NaN) for an unmapped category. -/
def lulcWeightRows (lulc : List (String × String)) : List (String × Option ℚ) :=
  lulc.map (fun r => (r.1, findVal r.2 lulc_weight_mapping))

/-- `states_gdf.merge(lulc_gdf[["State", "LULC_Weight"]], on="State", how="left")`. -/
def mergeLulcStep {γ : Type} (rows : List (Row γ)) (lulc : List (String × String)) :
    List (Row γ) :=
  rows.flatMap (fun b =>
    let ms := (lulcWeightRows lulc).filter (fun r => r.1 = b.state)
    if ms.isEmpty then [{ b with lulcWeight := .nan }]
    else ms.map (fun r =>
      { b with lulcWeight := match r.2 with | none => .nan | some w => .num w }))

/-- `states_gdf["LULC_Weight"].fillna(1.0, inplace=True)`. -/
def fillnaLulc {γ : Type} (rows : List (Row γ)) : List (Row γ) :=
  rows.map (fun r =>
    { r with lulcWeight := if isNan r.lulcWeight then .num 1 else r.lulcWeight })

/-- The Step-3 cell: LULC weights mapped, merged and NaN-filled with 1.0. -/
def lulcStage {γ : Type} (rows : List (Row γ)) (lulc : List (String × String)) :
    List (Row γ) :=
  fillnaLulc (mergeLulcStep rows lulc)

/-- `optimal_temp = 26.0` from the notebook. -/
def optimal_temp : ℚ := 26

/-- `temp_range = 6.0` from the notebook. -/
def temp_range : ℚ := 6

/-- The Temp_Score formula applied to one cell:
`1 - abs(T - optimal_temp) / temp_range`, then `.clip(lower=0)`. -/
def tempScoreFn (t : PVal) : PVal :=
  pclip0 (psub (.num 1) (pdiv (pabs (psub t (.num optimal_temp))) (.num temp_range)))

/-- The Step-4 cell: Temp_Score, Rain_Score (rainfall divided by the
column maximum `states_gdf["Avg_Rainfall"].max()`), and Env_Risk
(`LULC_Weight * Temp_Score * Rain_Score`). -/
def scoreStep {γ : Type} (rows : List (Row γ)) : List (Row γ) :=
  let rows1 := rows.map (fun r => { r with tempScore := tempScoreFn r.avgTemp })
  let maxR := pmaxSkipNa (rows1.map (fun r => r.avgRain))
  let rows2 := rows1.map (fun r => { r with rainScore := pdiv r.avgRain maxR })
  rows2.map (fun r => { r with envRisk := pmul (pmul r.lulcWeight r.tempScore) r.rainScore })

/-- `national_malaria_incidence = 500000` from the notebook. -/
def national_malaria_incidence : ℚ := 500000

/-- The Step-5 cell: `State_Weight = Population * Env_Risk`,
`total_weight = states_gdf["State_Weight"].sum()`, and
`Allocated_Cases = (State_Weight / total_weight) * n`. -/
def allocStep {γ : Type} (rows : List (Row γ)) (n : ℚ) : List (Row γ) :=
  let rows1 := rows.map (fun r => { r with stateWeight := pmul r.population r.envRisk })
  let total := psumSkipNa (rows1.map (fun r => r.stateWeight))
  rows1.map (fun r => { r with allocatedCases := pmul (pdiv r.stateWeight total) (.num n) })

/-- The full notebook pipeline in cell order: merges, LULC weighting,
risk scoring, allocation. The Step-6 export writes these rows unchanged. -/
def runPipeline {γ : Type} (boundary : List (String × γ)) (pop : List (String × ℚ))
    (env : List (String × ℚ × ℚ)) (lulc : List (String × String)) (n : ℚ) :
    List (Row γ) :=
  allocStep (scoreStep (lulcStage (mergeStates boundary pop env) lulc)) n

/-!
Embedding of the dashboard notebook's `update_dashboard` callback: the
dynamically built SQL query and its parameter dict, the SQL filter
semantics over the `incidence_data` table, and the derived outputs.
-/

/-- A row of the `incidence_data` table. -/
structure IncidenceRow where
  state : String
  year : Int
  date : String
  rainfall_mm : PVal
  incidence_rate_adjusted : PVal
  mortality_rate_adjusted : PVal
  infection_prevalence_adjusted : PVal
  effective_treatment_adjusted : PVal
deriving DecidableEq

/-- A bound SQL parameter value. -/
inductive SqlValue where
  | intV : Int → SqlValue
  | strV : String → SqlValue
deriving DecidableEq

/-- Python truthiness of the year dropdown value (`if selected_year:`):
falsy when absent or 0. -/
def truthyYear : Option Int → Bool
  | none => false
  | some y => y != 0

/-- Python truthiness of the state dropdown value (`if selected_state:`):
falsy when absent or the empty string. -/
def truthyState : Option String → Bool
  | none => false
  | some s => s != ""

/-- The query text and parameter dict built at the top of
`update_dashboard`. -/
def buildQuery (selYear : Option Int) (selState : Option String) :
    String × List (String × SqlValue) :=
  let q0 := "SELECT * FROM incidence_data WHERE 1=1"
  let qp1 :=
    if truthyYear selYear then
      (q0 ++ " AND year = :year", [("year", SqlValue.intV (selYear.getD 0))])
    else (q0, [])
  if truthyState selState then
    (qp1.1 ++ " AND state = :state", qp1.2 ++ [("state", SqlValue.strV (selState.getD ""))])
  else qp1

/-- Whether a table row satisfies the query's WHERE clause. -/
def rowMatches (selYear : Option Int) (selState : Option String)
    (r : IncidenceRow) : Bool :=
  (if truthyYear selYear then decide (r.year = selYear.getD 0) else true) &&
  (if truthyState selState then decide (r.state = selState.getD "") else true)

/-- The `filtered_data` frame: the table rows satisfying the query. -/
def filterRows (table : List IncidenceRow) (selYear : Option Int)
    (selState : Option String) : List IncidenceRow :=
  table.filter (rowMatches selYear selState)

/-- `row[selected_indicator]`: dynamic column access by indicator name,
`none` when the name is not a column handled here. -/
def indicatorValue (ind : String) (r : IncidenceRow) : Option PVal :=
  if ind = "incidence_rate_adjusted" then some r.incidence_rate_adjusted
  else if ind = "mortality_rate_adjusted" then some r.mortality_rate_adjusted
  else if ind = "infection_prevalence_adjusted" then some r.infection_prevalence_adjusted
  else if ind = "effective_treatment_adjusted" then some r.effective_treatment_adjusted
  else none

/-- The outputs of `update_dashboard`: query text, bound parameters, the
filtered frame, per-row popup data (state and charted indicator value),
the charted column, and the three KPI cards. -/
structure DashOutput where
  query : String
  params : List (String × SqlValue)
  filtered : List IncidenceRow
  popups : List (String × Option PVal)
  chartY : List (Option PVal)
  kpi1 : PVal
  kpi2 : PVal
  kpi3 : PVal
deriving DecidableEq

/-- The `update_dashboard` callback body. -/
def update_dashboard (table : List IncidenceRow) (selYear : Option Int)
    (selInd : String) (selState : Option String) : DashOutput :=
  let qp := buildQuery selYear selState
  let fd := filterRows table selYear selState
  { query := qp.1
    params := qp.2
    filtered := fd
    popups := fd.map (fun r => (r.state, indicatorValue selInd r))
    chartY := fd.map (indicatorValue selInd)
    kpi1 := psumSkipNa (fd.map (fun r => r.incidence_rate_adjusted))
    kpi2 := psumSkipNa (fd.map (fun r => r.mortality_rate_adjusted))
    kpi3 := pmeanSkipNa (fd.map (fun r => r.effective_treatment_adjusted)) }

/-! Helper lemmas about the cell arithmetic. -/

theorem pmul_nan_right (x : PVal) : pmul x PVal.nan = PVal.nan := by
  cases x <;> rfl

theorem pmul_nan_left (y : PVal) : pmul PVal.nan y = PVal.nan := by
  cases y <;> rfl

theorem pdiv_nan_left (y : PVal) : pdiv PVal.nan y = PVal.nan := by
  cases y <;> rfl

theorem foldl_padd_num (l : List ℚ) (a : ℚ) :
    (l.map PVal.num).foldl padd (PVal.num a) = PVal.num (a + l.sum) := by
  induction l generalizing a with
  | nil => simp
  | cons x xs ih =>
    simp only [List.map_cons, List.foldl_cons, List.sum_cons, padd, ih]
    ring_nf

theorem psumSkipNa_map_num (l : List ℚ) :
    psumSkipNa (l.map PVal.num) = PVal.num l.sum := by
  have hf : (l.map PVal.num).filter (fun v => !isNan v) = l.map PVal.num := by
    rw [List.filter_eq_self]
    intro v hv
    rcases List.mem_map.mp hv with ⟨q, _, rfl⟩
    rfl
  rw [psumSkipNa, hf, foldl_padd_num, zero_add]

theorem pmeanSkipNa_map_num (l : List ℚ) (h : l ≠ []) :
    pmeanSkipNa (l.map PVal.num) = PVal.num (l.sum / l.length) := by
  have hf : (l.map PVal.num).filter (fun v => !isNan v) = l.map PVal.num := by
    rw [List.filter_eq_self]
    intro v hv
    rcases List.mem_map.mp hv with ⟨q, _, rfl⟩
    rfl
  have hne : ((l.map PVal.num).isEmpty) = false := by
    cases l with
    | nil => exact absurd rfl h
    | cons x xs => rfl
  rw [pmeanSkipNa]
  simp only [hf, hne, Bool.false_eq_true, if_false, foldl_padd_num, zero_add]
  have hlen : ((l.length : ℚ)) ≠ 0 := by
    have hn : l.length ≠ 0 := fun h0 => h (List.eq_nil_of_length_eq_zero h0)
    exact_mod_cast hn
  simp only [pdiv, List.length_map]
  rw [if_neg hlen]

/-- C2: the Environmental Risk Scorer's temperature score is
max(0, 1 − |T − 26| / 6) for every rational temperature T; it always lies
in [0, 1], equals 1 at T = 26, equals 0 at T = 32, and clips to exactly 0
(never negative) at T = 38. -/
theorem tempScore_spec :
    (∀ t : ℚ, tempScoreFn (PVal.num t) = PVal.num (max 0 (1 - |t - 26| / 6)) ∧
      0 ≤ max 0 (1 - |t - 26| / 6) ∧ max 0 (1 - |t - 26| / 6) ≤ 1) ∧
    tempScoreFn (PVal.num 26) = PVal.num 1 ∧
    tempScoreFn (PVal.num 32) = PVal.num 0 ∧
    tempScoreFn (PVal.num 38) = PVal.num 0 := by
  have key : ∀ t : ℚ, tempScoreFn (PVal.num t) = PVal.num (max 0 (1 - |t - 26| / 6)) := by
    intro t
    have h26 : t + -26 = t - 26 := by ring
    simp only [tempScoreFn, psub, pneg, padd, pabs, pdiv, pclip0, optimal_temp,
      temp_range, h26]
    rw [if_neg (by norm_num : (6 : ℚ) ≠ 0)]
    rw [max_comm]
    ring_nf
  refine ⟨fun t => ⟨key t, le_max_left _ _, ?_⟩, ?_, ?_, ?_⟩
  · refine max_le (by norm_num) ?_
    have : (0 : ℚ) ≤ |t - 26| / 6 := by positivity
    linarith
  · rw [key]
    norm_num
  · rw [key]
    norm_num
  · rw [key]
    norm_num

theorem map_pmul_eq {γ : Type} (rows : List (Row γ)) :
    ∀ (pop risk : List ℚ),
      rows.map (fun r => r.population) = pop.map PVal.num →
      rows.map (fun r => r.envRisk) = risk.map PVal.num →
      rows.map (fun r => pmul r.population r.envRisk)
        = (List.zipWith (fun p q => p * q) pop risk).map PVal.num := by
  induction rows with
  | nil =>
    intro pop risk hp _
    have hpop : pop = [] := by
      cases pop with
      | nil => rfl
      | cons p ps => simp at hp
    subst hpop
    simp
  | cons r rs ih =>
    intro pop risk hp he
    cases pop with
    | nil => simp at hp
    | cons p ps =>
      cases risk with
      | nil => simp at he
      | cons q qs =>
        simp only [List.map_cons, List.cons.injEq] at hp he
        simp only [List.zipWith_cons_cons, List.map_cons, List.cons.injEq]
        refine ⟨?_, ih ps qs hp.2 he.2⟩
        rw [hp.1, he.1]
        rfl

theorem allocStep_eq {γ : Type} (rows : List (Row γ)) (n : ℚ) :
    allocStep rows n
      = rows.map (fun r =>
          { r with
            stateWeight := pmul r.population r.envRisk
            allocatedCases :=
              pmul (pdiv (pmul r.population r.envRisk)
                  (psumSkipNa (rows.map (fun s => pmul s.population s.envRisk))))
                (PVal.num n) }) := by
  simp only [allocStep, List.map_map]
  rfl

theorem sum_map_div_mul (ws : List ℚ) (S n : ℚ) :
    (ws.map (fun w => w / S * n)).sum = ws.sum / S * n := by
  induction ws with
  | nil => simp
  | cons w t ih =>
    simp only [List.map_cons, List.sum_cons, ih]
    ring

/-- C1: for rows whose Population and Env_Risk columns hold exact rationals
with positive total weight, the Allocator computes
State_Weight = Population × Env_Risk per state,
Allocated_Cases = (State_Weight / total_weight) × N per state, and the
Allocated_Cases column sums exactly to the national incidence input N. -/
theorem allocator_sum_spec {γ : Type} (rows : List (Row γ)) (pop risk : List ℚ)
    (n : ℚ)
    (hp : rows.map (fun r => r.population) = pop.map PVal.num)
    (he : rows.map (fun r => r.envRisk) = risk.map PVal.num)
    (hw : 0 < (List.zipWith (fun p q => p * q) pop risk).sum) :
    (allocStep rows n).map (fun r => r.stateWeight)
      = (List.zipWith (fun p q => p * q) pop risk).map PVal.num ∧
    (allocStep rows n).map (fun r => r.allocatedCases)
      = (List.zipWith (fun p q => p * q) pop risk).map
          (fun w =>
            PVal.num (w / (List.zipWith (fun p q => p * q) pop risk).sum * n)) ∧
    psumSkipNa ((allocStep rows n).map (fun r => r.allocatedCases)) = PVal.num n := by
  have hmul : rows.map (fun r => pmul r.population r.envRisk)
      = (List.zipWith (fun p q => p * q) pop risk).map PVal.num :=
    map_pmul_eq rows pop risk hp he
  set ws := List.zipWith (fun p q => p * q) pop risk with hws
  have hSne : ws.sum ≠ 0 := ne_of_gt hw
  have hsw : (allocStep rows n).map (fun r => r.stateWeight) = ws.map PVal.num := by
    simp only [allocStep, List.map_map]
    exact hmul
  have hac : (allocStep rows n).map (fun r => r.allocatedCases)
      = ws.map (fun w => PVal.num (w / ws.sum * n)) := by
    rw [allocStep_eq, List.map_map]
    have h0 : rows.map (fun s => pmul s.population s.envRisk) = ws.map PVal.num :=
      hmul
    simp only [h0, psumSkipNa_map_num]
    have h1 : ((fun r : Row γ =>
        pmul (pdiv (pmul r.population r.envRisk) (PVal.num ws.sum)) (PVal.num n)))
        = ((fun v => pmul (pdiv v (PVal.num ws.sum)) (PVal.num n)) ∘
            (fun r => pmul r.population r.envRisk)) := rfl
    show rows.map ((fun v => pmul (pdiv v (PVal.num ws.sum)) (PVal.num n)) ∘
        (fun r => pmul r.population r.envRisk))
      = ws.map (fun w => PVal.num (w / ws.sum * n))
    rw [← List.map_map, hmul, List.map_map]
    refine List.map_congr_left (fun w _ => ?_)
    show pmul (pdiv (PVal.num w) (PVal.num ws.sum)) (PVal.num n)
      = PVal.num (w / ws.sum * n)
    simp only [pdiv, pmul]
    rw [if_neg hSne]
  refine ⟨hsw, hac, ?_⟩
  rw [hac]
  have : ws.map (fun w => PVal.num (w / ws.sum * n))
      = (ws.map (fun w => w / ws.sum * n)).map PVal.num := by
    rw [List.map_map]
    rfl
  rw [this, psumSkipNa_map_num, sum_map_div_mul, div_self hSne, one_mul]

/-- Witness for C1 at a concrete input: two states with weights 2 and 12
and national input 7; the allocated cases sum to exactly 7. -/
theorem allocator_sum_spec_witness :
    0 < (List.zipWith (fun p q => p * q) [(1 : ℚ), 3] [2, 4]).sum ∧
    psumSkipNa ((allocStep
      [{ state := "A", geometry := (0 : ℕ), population := PVal.num 1,
         envRisk := PVal.num 2 },
       { state := "B", geometry := 0, population := PVal.num 3,
         envRisk := PVal.num 4 }] 7).map (fun r => r.allocatedCases))
      = PVal.num 7 :=
  ⟨by norm_num [List.zipWith],
   (allocator_sum_spec
     [{ state := "A", geometry := (0 : ℕ), population := PVal.num 1,
        envRisk := PVal.num 2 },
      { state := "B", geometry := 0, population := PVal.num 3,
        envRisk := PVal.num 4 }]
     [1, 3] [2, 4] 7 rfl rfl (by norm_num [List.zipWith])).2.2⟩

theorem foldl_pmax2_zero (l : List PVal) (h : ∀ v ∈ l, v = PVal.num 0) :
    l.foldl pmax2 (PVal.num 0) = PVal.num 0 := by
  induction l with
  | nil => rfl
  | cons x xs ih =>
    rw [List.foldl_cons, h x (List.mem_cons_self x xs)]
    have : pmax2 (PVal.num 0) (PVal.num 0) = PVal.num 0 := by
      simp [pmax2]
    rw [this]
    exact ih (fun v hv => h v (List.mem_cons_of_mem x hv))

theorem pmaxSkipNa_zeros (l : List PVal) (hne : l ≠ [])
    (h : ∀ v ∈ l, v = PVal.num 0) : pmaxSkipNa l = PVal.num 0 := by
  have hf : l.filter (fun v => !isNan v) = l := by
    rw [List.filter_eq_self]
    intro v hv
    rw [h v hv]
    rfl
  rw [pmaxSkipNa, hf]
  cases l with
  | nil => exact absurd rfl hne
  | cons x xs =>
    have hx : x = PVal.num 0 := h x (List.mem_cons_self x xs)
    rw [hx]
    exact foldl_pmax2_zero xs (fun v hv => h v (List.mem_cons_of_mem x hv))

theorem scoreStep_eq {γ : Type} (rows : List (Row γ)) :
    scoreStep rows
      = rows.map (fun r =>
          { r with
            tempScore := tempScoreFn r.avgTemp
            rainScore := pdiv r.avgRain (pmaxSkipNa (rows.map (fun s => s.avgRain)))
            envRisk := pmul (pmul r.lulcWeight (tempScoreFn r.avgTemp))
              (pdiv r.avgRain (pmaxSkipNa (rows.map (fun s => s.avgRain)))) }) := by
  simp only [scoreStep, List.map_map]
  rfl

/-- C3 counterexample: for a run in which every state's rainfall is 0
(R_max = 0), the Environmental Risk Scorer does not raise any error: it
performs the division `0 / 0` and returns Rain_Score NaN for the state. -/
theorem rain_degenerate_counterexample :
    (scoreStep [({ state := "A", geometry := 0, avgTemp := PVal.num 26, avgRain := PVal.num 0, lulcWeight := PVal.num 1 } : Row ℕ)]).map
        (fun r => r.rainScore)
      = [PVal.nan] := by
  rw [scoreStep_eq]
  rfl

/-- C3 amended: if the maximum rainfall observed across all states is 0
(every state's Avg_Rainfall is 0), the scorer performs the rainfall
division anyway: every state's Rain_Score is NaN (0/0) and no error is
raised. -/
theorem rain_degenerate_amended {γ : Type} (rows : List (Row γ))
    (h : ∀ r ∈ rows, r.avgRain = PVal.num 0) :
    (scoreStep rows).map (fun r => r.rainScore)
      = List.replicate rows.length PVal.nan := by
  cases rows with
  | nil => rfl
  | cons r0 rs =>
    rw [scoreStep_eq, List.map_map]
    have hmax : pmaxSkipNa ((r0 :: rs).map (fun s => s.avgRain)) = PVal.num 0 := by
      apply pmaxSkipNa_zeros
      · simp
      · intro v hv
        rcases List.mem_map.mp hv with ⟨b, hb, rfl⟩
        exact h b hb
    refine List.eq_replicate_iff.mpr ⟨by simp, ?_⟩
    intro b hb
    rcases List.mem_map.mp hb with ⟨a, ha, rfl⟩
    show pdiv a.avgRain (pmaxSkipNa ((r0 :: rs).map (fun s => s.avgRain))) = PVal.nan
    rw [hmax, h a ha]
    rfl

/-- Witness for the amended C3 at a concrete input: one state with
rainfall 0; its Rain_Score comes out NaN. -/
theorem rain_degenerate_amended_witness :
    (∀ r ∈ [({ state := "A", geometry := 0, avgRain := PVal.num 0 } : Row ℕ)],
      r.avgRain = PVal.num 0) ∧
    (scoreStep [({ state := "A", geometry := 0, avgRain := PVal.num 0 } : Row ℕ)]).map
        (fun r => r.rainScore)
      = List.replicate
          ([({ state := "A", geometry := 0, avgRain := PVal.num 0 } : Row ℕ)]).length
          PVal.nan :=
  ⟨by simp, rain_degenerate_amended
    [({ state := "A", geometry := 0, avgRain := PVal.num 0 } : Row ℕ)] (by simp)⟩

/-- C4 counterexample: with a single state whose weight is 0 (so
total_weight = 0) the Allocator raises no error: it divides anyway and
emits Allocated_Cases NaN. -/
theorem allocator_degenerate_counterexample :
    (allocStep [({ state := "A", geometry := 0, population := PVal.num 0, envRisk := PVal.num 0 } : Row ℕ)] national_malaria_incidence).map
        (fun r => r.allocatedCases)
      = [PVal.nan] := by
  rw [allocStep_eq]
  norm_num [pmul, pdiv, psumSkipNa, padd, isNan, List.filter]

/-- C4 amended: when every computed state weight is 0 (total_weight = 0),
the Allocator performs the division anyway: every state's Allocated_Cases
is NaN (0/0 scaled by N) and no error is raised. -/
theorem allocator_degenerate_amended {γ : Type} (rows : List (Row γ)) (n : ℚ)
    (h : ∀ r ∈ rows, pmul r.population r.envRisk = PVal.num 0) :
    (allocStep rows n).map (fun r => r.allocatedCases)
      = List.replicate rows.length PVal.nan := by
  rw [allocStep_eq, List.map_map]
  have hw : rows.map (fun s => pmul s.population s.envRisk)
      = (List.replicate rows.length (0 : ℚ)).map PVal.num := by
    rw [List.map_replicate]
    refine List.eq_replicate_iff.mpr ⟨by simp, ?_⟩
    intro b hb
    rcases List.mem_map.mp hb with ⟨a, ha, rfl⟩
    exact h a ha
  have hT : psumSkipNa (rows.map (fun s => pmul s.population s.envRisk))
      = PVal.num 0 := by
    rw [hw, psumSkipNa_map_num]
    simp
  simp only [hT]
  refine List.eq_replicate_iff.mpr ⟨by simp, ?_⟩
  intro b hb
  rcases List.mem_map.mp hb with ⟨a, ha, rfl⟩
  show pmul (pdiv (pmul a.population a.envRisk) (PVal.num 0)) (PVal.num n) = PVal.nan
  rw [h a ha]
  rfl

/-- Witness for the amended C4 at a concrete input: one state with
population 0; its Allocated_Cases comes out NaN. -/
theorem allocator_degenerate_amended_witness :
    (∀ r ∈ [({ state := "A", geometry := 0, population := PVal.num 0, envRisk := PVal.num 0 } : Row ℕ)],
      pmul r.population r.envRisk = PVal.num 0) ∧
    (allocStep [({ state := "A", geometry := 0, population := PVal.num 0, envRisk := PVal.num 0 } : Row ℕ)] 500000).map (fun r => r.allocatedCases)
      = List.replicate
          ([({ state := "A", geometry := 0, population := PVal.num 0, envRisk := PVal.num 0 } : Row ℕ)]).length PVal.nan :=
  ⟨by simp [pmul], allocator_degenerate_amended
    [({ state := "A", geometry := 0, population := PVal.num 0, envRisk := PVal.num 0 } : Row ℕ)] 500000 (by simp [pmul])⟩

/-- C5 counterexample: a state whose LULC table has the two category
records Urban and Water does not get one proportion-weighted average
weight 1.1: the left-merge duplicates the state's row, giving two output
rows with weights 1.5 and 0.5 (the source table carries no proportions at
all). -/
theorem lulc_multi_category_counterexample :
    (lulcStage [({ state := "A", geometry := 0 } : Row ℕ)]
        [("A", "Urban"), ("A", "Water")]).map (fun r => (r.state, r.lulcWeight))
      = [("A", PVal.num (3 / 2)), ("A", PVal.num (1 / 2))] ∧
    (lulcStage [({ state := "A", geometry := 0 } : Row ℕ)]
        [("A", "Urban"), ("A", "Water")]).length = 2 := by
  constructor <;> rfl

theorem fillna_merge_cell (c : String) :
    (if isNan (match findVal c lulc_weight_mapping with | none => PVal.nan | some w => PVal.num w) then PVal.num 1 else (match findVal c lulc_weight_mapping with | none => PVal.nan | some w => PVal.num w))
      = (match findVal c lulc_weight_mapping with | none => PVal.num 1 | some w => PVal.num w) := by
  cases hv : findVal c lulc_weight_mapping with
  | none => rfl
  | some w => rfl

theorem fillna_merge_branch {γ : Type} (b : Row γ) (lulc : List (String × String)) :
    (if ((lulcWeightRows lulc).filter (fun r => r.1 = b.state)).isEmpty
     then [{ b with lulcWeight := PVal.nan }]
     else ((lulcWeightRows lulc).filter (fun r => r.1 = b.state)).map
       (fun r => { b with lulcWeight := match r.2 with | none => PVal.nan | some w => PVal.num w })).map
      (fun r => { r with lulcWeight := if isNan r.lulcWeight then PVal.num 1 else r.lulcWeight })
    = if (lulc.filter (fun rec => rec.1 = b.state)).isEmpty
      then [{ b with lulcWeight := PVal.num 1 }]
      else (lulc.filter (fun rec => rec.1 = b.state)).map
        (fun rec => { b with lulcWeight := match findVal rec.2 lulc_weight_mapping with | none => PVal.num 1 | some w => PVal.num w }) := by
  have hfm : (lulcWeightRows lulc).filter (fun r => r.1 = b.state)
      = (lulc.filter (fun rec => rec.1 = b.state)).map
          (fun rec => (rec.1, findVal rec.2 lulc_weight_mapping)) := by
    rw [lulcWeightRows, List.filter_map]
    rfl
  rw [hfm]
  cases hml : lulc.filter (fun rec => rec.1 = b.state) with
  | nil => rfl
  | cons x xs =>
    simp only [List.map_cons, List.isEmpty_cons, Bool.false_eq_true, if_false,
      List.map_map]
    congr 1
    · exact congrArg (fun v => ({ b with lulcWeight := v } : Row γ))
        (fillna_merge_cell x.2)
    · refine List.map_congr_left (fun rec _ => ?_)
      exact congrArg (fun v => ({ b with lulcWeight := v } : Row γ))
        (fillna_merge_cell rec.2)

/-- C5 amended: for every boundary row collection and every LULC record
table, the LULC weighting stage never errors and produces, for each input
row, one output row per category record matching that row's state, each
carrying that record's own weight from the table {Urban 1.5,
Agricultural 1.3, Forested 1.0, Water 0.5} (or the default 1.0 when the
category is unmapped), and a single output row with the default weight 1.0
when the state has no matching record; no proportion-weighted averaging
takes place. -/
theorem lulc_weighting_amended {γ : Type} (rows : List (Row γ))
    (lulc : List (String × String)) :
    lulcStage rows lulc
      = rows.flatMap (fun b =>
          if (lulc.filter (fun rec => rec.1 = b.state)).isEmpty
          then [{ b with lulcWeight := PVal.num 1 }]
          else (lulc.filter (fun rec => rec.1 = b.state)).map
            (fun rec => { b with lulcWeight := match findVal rec.2 lulc_weight_mapping with | none => PVal.num 1 | some w => PVal.num w })) := by
  have h1 : lulcStage rows lulc
      = rows.flatMap (fun b =>
          (if ((lulcWeightRows lulc).filter (fun r => r.1 = b.state)).isEmpty
           then [{ b with lulcWeight := PVal.nan }]
           else ((lulcWeightRows lulc).filter (fun r => r.1 = b.state)).map
             (fun r => { b with lulcWeight := match r.2 with | none => PVal.nan | some w => PVal.num w })).map
            (fun r => { r with lulcWeight := if isNan r.lulcWeight then PVal.num 1 else r.lulcWeight })) := by
    rw [lulcStage, mergeLulcStep, fillnaLulc, List.map_flatMap]
  rw [h1]
  exact congrArg _ (funext fun b => fillna_merge_branch b lulc)

/-- C10: the `update_dashboard` callback builds the same query text and
parameters, hence the same filtered row set and the same three KPI values,
for any two indicator selections with the same year and state selection;
the indicator influences only the charted column and popup data. -/
theorem update_dashboard_indicator_noninterference (table : List IncidenceRow)
    (y : Option Int) (s : Option String) (i1 i2 : String) :
    (update_dashboard table y i1 s).query = (update_dashboard table y i2 s).query ∧
    (update_dashboard table y i1 s).params = (update_dashboard table y i2 s).params ∧
    (update_dashboard table y i1 s).filtered = (update_dashboard table y i2 s).filtered ∧
    (update_dashboard table y i1 s).kpi1 = (update_dashboard table y i2 s).kpi1 ∧
    (update_dashboard table y i1 s).kpi2 = (update_dashboard table y i2 s).kpi2 ∧
    (update_dashboard table y i1 s).kpi3 = (update_dashboard table y i2 s).kpi3 :=
  ⟨rfl, rfl, rfl, rfl, rfl, rfl⟩

/-! Characterization of the left-merges under unique right-side keys. -/

theorem filter_key_nil {α : Type} (tbl : List (String × α)) (k : String)
    (h : k ∉ tbl.map Prod.fst) : tbl.filter (fun r => r.1 = k) = [] := by
  induction tbl with
  | nil => rfl
  | cons a rs ih =>
    simp only [List.map_cons, List.mem_cons, not_or] at h
    rw [List.filter_cons]
    rw [if_neg (by simpa using fun hek : a.1 = k => h.1 hek.symm)]
    exact ih h.2

theorem filter_key_of_nodup {α : Type} (tbl : List (String × α)) (k : String)
    (h : (tbl.map Prod.fst).Nodup) :
    tbl.filter (fun r => r.1 = k)
      = (match findVal k tbl with
         | none => []
         | some v => [(k, v)]) := by
  induction tbl with
  | nil => rfl
  | cons a rs ih =>
    simp only [List.map_cons, List.nodup_cons] at h
    rw [List.filter_cons, findVal]
    by_cases hk : a.1 = k
    · rw [if_pos (by simpa using hk), if_pos hk]
      have hrs : rs.filter (fun r => r.1 = k) = [] :=
        filter_key_nil rs k (by rw [← hk]; exact h.1)
      rw [hrs]
      have ha : a = (k, a.2) := by
        rw [← hk]
      exact congrArg (fun x => [x]) ha
    · rw [if_neg (by simpa using hk), if_neg hk]
      exact ih h.2

theorem mergePopStep_eq_map {γ : Type} (pop : List (String × ℚ))
    (h : (pop.map Prod.fst).Nodup) (rows : List (Row γ)) :
    mergePopStep rows pop
      = rows.map (fun b =>
          { b with population :=
              match findVal b.state pop with
              | none => PVal.nan
              | some v => PVal.num v }) := by
  induction rows with
  | nil => rfl
  | cons r rs ih =>
    simp only [mergePopStep, List.flatMap_cons, List.map_cons] at ih ⊢
    rw [filter_key_of_nodup pop r.state h]
    cases hfv : findVal r.state pop with
    | none => simp only [List.isEmpty_nil, if_pos, List.singleton_append, ih]
    | some v =>
      simp only [List.isEmpty_cons, if_neg, List.map_cons, List.map_nil,
        List.singleton_append, ih]
      rfl

theorem mergeEnvStep_eq_map {γ : Type} (env : List (String × ℚ × ℚ))
    (h : (env.map Prod.fst).Nodup) (rows : List (Row γ)) :
    mergeEnvStep rows env
      = rows.map (fun b =>
          { b with
            avgTemp :=
              match findVal b.state env with
              | none => PVal.nan
              | some v => PVal.num v.1
            avgRain :=
              match findVal b.state env with
              | none => PVal.nan
              | some v => PVal.num v.2 }) := by
  induction rows with
  | nil => rfl
  | cons r rs ih =>
    simp only [mergeEnvStep, List.flatMap_cons, List.map_cons] at ih ⊢
    rw [filter_key_of_nodup env r.state h]
    cases hfv : findVal r.state env with
    | none => simp only [List.isEmpty_nil, if_pos, List.singleton_append, ih]
    | some v =>
      simp only [List.isEmpty_cons, if_neg, List.map_cons, List.map_nil,
        List.singleton_append, ih]
      rfl

/-- C6: with at most one population row and one environment row per state
key, the Merger left-joins both tables onto the boundary collection: the
output keeps every boundary entry, in boundary order, with its geometry,
and a boundary entry with no matching population (resp. environment) row
gets a null (NaN) population (resp. temperature and rainfall). -/
theorem merger_left_join_spec {γ : Type} (boundary : List (String × γ))
    (pop : List (String × ℚ)) (env : List (String × ℚ × ℚ))
    (hpop : (pop.map Prod.fst).Nodup) (henv : (env.map Prod.fst).Nodup) :
    (mergeStates boundary pop env).map (fun r => (r.state, r.geometry)) = boundary ∧
    (∀ r ∈ mergeStates boundary pop env,
      (findVal r.state pop = none → r.population = PVal.nan) ∧
      (findVal r.state env = none → r.avgTemp = PVal.nan ∧ r.avgRain = PVal.nan)) := by
  rw [mergeStates, mergePopStep_eq_map pop hpop, mergeEnvStep_eq_map env henv,
    initRows, List.map_map, List.map_map]
  constructor
  · rw [List.map_map]
    exact List.map_id'' (fun x => rfl) boundary
  · intro r hr
    rcases List.mem_map.mp hr with ⟨b, hb, rfl⟩
    rcases List.mem_map.mp hb with ⟨c, hc, rfl⟩
    rcases List.mem_map.mp hc with ⟨p, hp, rfl⟩
    refine ⟨fun hnone => ?_, fun hnone => ⟨?_, ?_⟩⟩
    · dsimp only [Function.comp] at hnone ⊢
      rw [hnone]
    · dsimp only [Function.comp] at hnone ⊢
      rw [hnone]
    · dsimp only [Function.comp] at hnone ⊢
      rw [hnone]

/-- Witness for C6 at a concrete input: boundary entries A and B, one
population row for A, no environment rows; the merged output keeps (A, B)
in boundary order with their geometries. -/
theorem merger_left_join_spec_witness :
    (([("A", (5 : ℚ))].map Prod.fst).Nodup ∧
      ((([] : List (String × ℚ × ℚ)).map Prod.fst).Nodup)) ∧
    (mergeStates [("A", (0 : ℕ)), ("B", 1)] [("A", 5)] []).map
        (fun r => (r.state, r.geometry)) = [("A", 0), ("B", 1)] :=
  ⟨⟨by simp, by simp⟩,
   (merger_left_join_spec [("A", (0 : ℕ)), ("B", 1)] [("A", 5)] []
     (by simp) (by simp)).1⟩

theorem alloc_nan_chain (p lw rain M T : PVal) (n : ℚ) :
    pmul (pdiv (pmul p (pmul (pmul lw (tempScoreFn PVal.nan)) (pdiv rain M))) T)
      (PVal.num n) = PVal.nan := by
  have h1 : tempScoreFn PVal.nan = PVal.nan := rfl
  rw [h1, pmul_nan_right lw, pmul_nan_left (pdiv rain M), pmul_nan_right p,
    pdiv_nan_left T, pmul_nan_left (PVal.num n)]

/-- C7 counterexample: a completed run with a boundary state that has no
environment row (null merged environmental values) exports
Allocated_Cases = NaN for that state; the NaN is propagated silently, no
default is applied and no failure occurs before export. -/
theorem nan_propagation_counterexample :
    (runPipeline [("A", (0 : ℕ))] [("A", 100)] [] [("A", "Urban")] 1000).map
      (fun r => r.allocatedCases) = [PVal.nan] := by
  rfl

/-- C7 amended: only the LULC weight is defaulted (to 1.0); a missing
merged environmental value is propagated silently: every completed run
gives any row whose Avg_Temperature is NaN an Allocated_Cases of NaN in
the exported output, and the pipeline never fails. -/
theorem nan_env_propagates {γ : Type} (boundary : List (String × γ))
    (pop : List (String × ℚ)) (env : List (String × ℚ × ℚ))
    (lulc : List (String × String)) (n : ℚ) :
    ∀ r ∈ runPipeline boundary pop env lulc n,
      r.avgTemp = PVal.nan → r.allocatedCases = PVal.nan := by
  intro r hr hnan
  rw [runPipeline, allocStep_eq] at hr
  rcases List.mem_map.mp hr with ⟨a, ha, rfl⟩
  rw [scoreStep_eq] at ha
  rcases List.mem_map.mp ha with ⟨b, hb, rfl⟩
  dsimp only at hnan ⊢
  rw [hnan]
  exact alloc_nan_chain b.population b.lulcWeight b.avgRain _ _ n

/-- Witness for the amended C7 at a concrete input: state A has
population 100 but no environment row, so its merged Avg_Temperature is
NaN and its exported Allocated_Cases is NaN. -/
theorem nan_env_propagates_witness :
    ({ state := "A", geometry := 0, population := PVal.num 100, lulcWeight := PVal.num 1 } : Row ℕ)
        ∈ runPipeline [("A", (0 : ℕ))] [("A", 100)] [] [] 1000 ∧
    ({ state := "A", geometry := 0, population := PVal.num 100, lulcWeight := PVal.num 1 } : Row ℕ).allocatedCases
        = PVal.nan :=
  ⟨by decide,
   nan_env_propagates [("A", (0 : ℕ))] [("A", 100)] [] [] 1000
     ({ state := "A", geometry := 0, population := PVal.num 100, lulcWeight := PVal.num 1 } : Row ℕ)
     (by decide) rfl⟩

theorem mem_mergePopStep {γ : Type} (rows : List (Row γ)) (pop : List (String × ℚ)) :
    ∀ r ∈ mergePopStep rows pop,
      ∃ b ∈ rows, r.state = b.state ∧ r.geometry = b.geometry := by
  intro r hr
  rcases List.mem_flatMap.mp hr with ⟨b, hb, hrb⟩
  refine ⟨b, hb, ?_⟩
  have hrb' : r ∈ (if (pop.filter (fun x => x.1 = b.state)).isEmpty
      then [{ b with population := PVal.nan }]
      else (pop.filter (fun x => x.1 = b.state)).map
        (fun x => { b with population := PVal.num x.2 })) := hrb
  split at hrb'
  · rw [List.mem_singleton] at hrb'
    subst hrb'
    exact ⟨rfl, rfl⟩
  · rcases List.mem_map.mp hrb' with ⟨x, hx, rfl⟩
    exact ⟨rfl, rfl⟩

theorem mem_mergeEnvStep {γ : Type} (rows : List (Row γ)) (env : List (String × ℚ × ℚ)) :
    ∀ r ∈ mergeEnvStep rows env,
      ∃ b ∈ rows, r.state = b.state ∧ r.geometry = b.geometry := by
  intro r hr
  rcases List.mem_flatMap.mp hr with ⟨b, hb, hrb⟩
  refine ⟨b, hb, ?_⟩
  have hrb' : r ∈ (if (env.filter (fun x => x.1 = b.state)).isEmpty
      then [{ b with avgTemp := PVal.nan, avgRain := PVal.nan }]
      else (env.filter (fun x => x.1 = b.state)).map
        (fun x => { b with avgTemp := PVal.num x.2.1, avgRain := PVal.num x.2.2 })) := hrb
  split at hrb'
  · rw [List.mem_singleton] at hrb'
    subst hrb'
    exact ⟨rfl, rfl⟩
  · rcases List.mem_map.mp hrb' with ⟨x, hx, rfl⟩
    exact ⟨rfl, rfl⟩

theorem mem_mergeLulcStep {γ : Type} (rows : List (Row γ)) (lulc : List (String × String)) :
    ∀ r ∈ mergeLulcStep rows lulc,
      ∃ b ∈ rows, r.state = b.state ∧ r.geometry = b.geometry := by
  intro r hr
  rcases List.mem_flatMap.mp hr with ⟨b, hb, hrb⟩
  refine ⟨b, hb, ?_⟩
  have hrb' : r ∈ (if ((lulcWeightRows lulc).filter (fun x => x.1 = b.state)).isEmpty
      then [{ b with lulcWeight := PVal.nan }]
      else ((lulcWeightRows lulc).filter (fun x => x.1 = b.state)).map
        (fun x => { b with lulcWeight :=
          match x.2 with | none => PVal.nan | some w => PVal.num w })) := hrb
  split at hrb'
  · rw [List.mem_singleton] at hrb'
    subst hrb'
    exact ⟨rfl, rfl⟩
  · rcases List.mem_map.mp hrb' with ⟨x, hx, rfl⟩
    exact ⟨rfl, rfl⟩

/-- C8: every record of the completed pipeline carries a state key and
boundary geometry that occur as an entry of the boundary input: the
merges, weighting, scoring, allocation and export only add derived
columns and never modify the attached geometry. -/
theorem geometry_carried_unmodified {γ : Type} (boundary : List (String × γ))
    (pop : List (String × ℚ)) (env : List (String × ℚ × ℚ))
    (lulc : List (String × String)) (n : ℚ) :
    ∀ r ∈ runPipeline boundary pop env lulc n, (r.state, r.geometry) ∈ boundary := by
  intro r hr
  rw [runPipeline, allocStep_eq] at hr
  rcases List.mem_map.mp hr with ⟨a, ha, rfl⟩
  rw [scoreStep_eq] at ha
  rcases List.mem_map.mp ha with ⟨b, hb, rfl⟩
  rw [lulcStage, fillnaLulc] at hb
  rcases List.mem_map.mp hb with ⟨c, hc, rfl⟩
  rcases mem_mergeLulcStep _ _ c hc with ⟨d, hd, hds, hdg⟩
  rw [mergeStates] at hd
  rcases mem_mergeEnvStep _ _ d hd with ⟨e, he, hes, heg⟩
  rcases mem_mergePopStep _ _ e he with ⟨f0, hf, hfs, hfg⟩
  rw [initRows] at hf
  rcases List.mem_map.mp hf with ⟨p, hp, rfl⟩
  show (c.state, c.geometry) ∈ boundary
  rw [hds, hdg, hes, heg, hfs, hfg]
  exact hp

/-- Witness for C8 at a concrete input: the single pipeline record for
state A still carries the boundary geometry 37. -/
theorem geometry_carried_witness :
    ({ state := "A", geometry := 37, lulcWeight := PVal.num 1 } : Row ℕ)
        ∈ runPipeline [("A", (37 : ℕ))] [] [] [] 1 ∧
    (({ state := "A", geometry := 37, lulcWeight := PVal.num 1 } : Row ℕ).state,
      ({ state := "A", geometry := 37, lulcWeight := PVal.num 1 } : Row ℕ).geometry)
        ∈ [("A", (37 : ℕ))] :=
  ⟨by decide,
   geometry_carried_unmodified [("A", (37 : ℕ))] [] [] [] 1
     ({ state := "A", geometry := 37, lulcWeight := PVal.num 1 } : Row ℕ) (by decide)⟩

/-- C9: over the filtered row set of `update_dashboard`, KPI 1 is the sum
of the incidence-rate column, KPI 2 the sum of the mortality-rate column,
and KPI 3 the mean of the effective-treatment column (stated for rational
cell values; the filtered set must be nonempty for the mean to be a
number). -/
theorem kpi_spec (table : List IncidenceRow) (y : Option Int) (i : String)
    (s : Option String) (inc mor eff : List ℚ)
    (hinc : (update_dashboard table y i s).filtered.map
      (fun r => r.incidence_rate_adjusted) = inc.map PVal.num)
    (hmor : (update_dashboard table y i s).filtered.map
      (fun r => r.mortality_rate_adjusted) = mor.map PVal.num)
    (heff : (update_dashboard table y i s).filtered.map
      (fun r => r.effective_treatment_adjusted) = eff.map PVal.num)
    (hne : eff ≠ []) :
    (update_dashboard table y i s).kpi1 = PVal.num inc.sum ∧
    (update_dashboard table y i s).kpi2 = PVal.num mor.sum ∧
    (update_dashboard table y i s).kpi3 = PVal.num (eff.sum / eff.length) := by
  refine ⟨?_, ?_, ?_⟩
  · show psumSkipNa ((update_dashboard table y i s).filtered.map
      (fun r => r.incidence_rate_adjusted)) = PVal.num inc.sum
    rw [hinc, psumSkipNa_map_num]
  · show psumSkipNa ((update_dashboard table y i s).filtered.map
      (fun r => r.mortality_rate_adjusted)) = PVal.num mor.sum
    rw [hmor, psumSkipNa_map_num]
  · show pmeanSkipNa ((update_dashboard table y i s).filtered.map
      (fun r => r.effective_treatment_adjusted)) = PVal.num (eff.sum / eff.length)
    rw [heff, pmeanSkipNa_map_num eff hne]

/-- Witness for C9 at a concrete input: a two-row table filtered to year
2020 leaves one row; KPI 1 is its incidence sum 2 and KPI 3 the
effective-treatment mean 4/1. -/
theorem kpi_spec_witness :
    (([(4 : ℚ)]) ≠ []) ∧
    (update_dashboard
      [{ state := "Kano", year := 2020, date := "2020-01", rainfall_mm := PVal.num 10, incidence_rate_adjusted := PVal.num 2, mortality_rate_adjusted := PVal.num 3, infection_prevalence_adjusted := PVal.num 0, effective_treatment_adjusted := PVal.num 4 },
       { state := "Lagos", year := 2021, date := "2021-01", rainfall_mm := PVal.num 20, incidence_rate_adjusted := PVal.num 5, mortality_rate_adjusted := PVal.num 6, infection_prevalence_adjusted := PVal.num 0, effective_treatment_adjusted := PVal.num 7 }]
      (some 2020) "incidence_rate_adjusted" none).kpi1 = PVal.num (([(2 : ℚ)]).sum) ∧
    (update_dashboard
      [{ state := "Kano", year := 2020, date := "2020-01", rainfall_mm := PVal.num 10, incidence_rate_adjusted := PVal.num 2, mortality_rate_adjusted := PVal.num 3, infection_prevalence_adjusted := PVal.num 0, effective_treatment_adjusted := PVal.num 4 },
       { state := "Lagos", year := 2021, date := "2021-01", rainfall_mm := PVal.num 20, incidence_rate_adjusted := PVal.num 5, mortality_rate_adjusted := PVal.num 6, infection_prevalence_adjusted := PVal.num 0, effective_treatment_adjusted := PVal.num 7 }]
      (some 2020) "incidence_rate_adjusted" none).kpi3
        = PVal.num (([(4 : ℚ)]).sum / ([(4 : ℚ)]).length) :=
  ⟨List.cons_ne_nil 4 [],
   (kpi_spec
     [{ state := "Kano", year := 2020, date := "2020-01", rainfall_mm := PVal.num 10, incidence_rate_adjusted := PVal.num 2, mortality_rate_adjusted := PVal.num 3, infection_prevalence_adjusted := PVal.num 0, effective_treatment_adjusted := PVal.num 4 },
      { state := "Lagos", year := 2021, date := "2021-01", rainfall_mm := PVal.num 20, incidence_rate_adjusted := PVal.num 5, mortality_rate_adjusted := PVal.num 6, infection_prevalence_adjusted := PVal.num 0, effective_treatment_adjusted := PVal.num 7 }]
     (some 2020) "incidence_rate_adjusted" none [2] [3] [4] rfl rfl rfl
     (List.cons_ne_nil 4 [])).1,
   (kpi_spec
     [{ state := "Kano", year := 2020, date := "2020-01", rainfall_mm := PVal.num 10, incidence_rate_adjusted := PVal.num 2, mortality_rate_adjusted := PVal.num 3, infection_prevalence_adjusted := PVal.num 0, effective_treatment_adjusted := PVal.num 4 },
      { state := "Lagos", year := 2021, date := "2021-01", rainfall_mm := PVal.num 20, incidence_rate_adjusted := PVal.num 5, mortality_rate_adjusted := PVal.num 6, infection_prevalence_adjusted := PVal.num 0, effective_treatment_adjusted := PVal.num 7 }]
     (some 2020) "incidence_rate_adjusted" none [2] [3] [4] rfl rfl rfl
     (List.cons_ne_nil 4 [])).2.2⟩
